import Mathlib

/-!
Verification of the `chrono-stride-ar` AR scene component and its dev tooling.

The embedding models the mutable render objects held in React refs
(`modelRef`, `markerRef`, `hitTestSourceRef`, `referenceSpaceRef`) as an
explicit `ARState`, and each event listener of the component
(`onSelect`, the `sessionstart`/`sessionend` listeners, the per-frame
`onXRFrame` callback) as a pure state transformer.  `startARSession` is
modelled as a function of a platform oracle describing which asynchronous
requests the WebXR platform grants; its observable effects (which reference
spaces were requested, which was chosen, whether a hit-test source request
was attempted, the user-facing error message) are collected in a result
record.  Scalar coordinates are modelled as rationals; the only arithmetic
the code performs on them is assignment and one addition of the constant
0.05.  The camera object is not modelled: no claim concerns it.
-/

/-- A 3-component vector, as in `THREE.Vector3`. -/
structure Vec3 where
  x : ℚ
  y : ℚ
  z : ℚ
deriving DecidableEq, Repr

/-- A quaternion, as in `THREE.Quaternion`.  In three.js an object's Euler
`rotation` and its `quaternion` are kept synchronised; we model the
orientation by the quaternion alone, with `rotation.set(0, 0, 0)` mapped to
the identity quaternion. -/
structure Quat where
  qx : ℚ
  qy : ℚ
  qz : ℚ
  qw : ℚ
deriving DecidableEq, Repr

/-- The identity orientation, i.e. Euler rotation (0, 0, 0). -/
def Quat.identity : Quat := ⟨0, 0, 0, 1⟩

/-- The loaded glTF model (`modelRef.current`). -/
structure Model3D where
  position : Vec3
  orientation : Quat
  scale : Vec3
  visible : Bool
deriving DecidableEq, Repr

/-- The placement marker group (`markerRef.current`).  `matrix` is the raw
4x4 transform written by `matrix.fromArray(pose.transform.matrix)`;
`childOpacity` is the opacity of the marker's mesh materials, written by the
pulse animation. -/
structure Marker where
  position : Vec3
  orientation : Quat
  scale : Vec3
  matrix : List ℚ
  childOpacity : ℚ
  visible : Bool
deriving DecidableEq, Repr

/-- An XR pose as returned by `hit.getPose(referenceSpace)`: we only need
its `transform.matrix` array. -/
structure XRPose where
  matrix : List ℚ
deriving DecidableEq, Repr

/-- One hit-test result.  `pose` is the result of `getPose` against the
session's reference space (`null` is modelled as `none`). -/
structure XRHitResult where
  pose : Option XRPose
deriving DecidableEq, Repr

/-- The data an `XRFrame` supplies to the frame callback: the hit-test
results for the active source, and the value of `Math.sin(Date.now() * 0.005)`
at this frame, which drives the marker's pulse animation. -/
structure XRFrameData where
  hitTestResults : List XRHitResult
  pulseSin : ℚ
deriving DecidableEq, Repr

/-- The component's mutable AR state: the refs holding the model, the
marker, the hit-test source, the reference space, plus the two flags. -/
structure ARState where
  model : Option Model3D
  marker : Option Marker
  hitTestSourceActive : Bool
  hitTestSourceRequested : Bool
  referenceSpaceSet : Bool
  isARSessionActive : Bool
deriving DecidableEq, Repr

/-- `markerRef.current?.visible` coerced to a boolean, as the `onSelect`
guard evaluates it (an absent marker is falsy). -/
def markerVisible (s : ARState) : Bool :=
  match s.marker with
  | some mk => mk.visible
  | none => false

/-- The model's placement transform: its position and orientation, when a
model is loaded. -/
def modelTransform (s : ARState) : Option (Vec3 × Quat) :=
  s.model.map fun m => (m.position, m.orientation)

/-- The model's position, when a model is loaded. -/
def modelPosition (s : ARState) : Option Vec3 :=
  s.model.map Model3D.position

/-- The `select` controller listener: if a model is loaded and the marker is
visible, copy the marker's position and quaternion onto the model, make the
model visible, and add 0.05 to its y coordinate; otherwise log and do
nothing. -/
def onSelect (s : ARState) : ARState :=
  match s.model, s.marker with
  | some m, some mk =>
    if mk.visible then
      { s with model := some { m with
          position := ⟨mk.position.x, mk.position.y + 0.05, mk.position.z⟩,
          orientation := mk.orientation,
          visible := true } }
    else s
  | _, _ => s

/-- The position `(0, 0, -0.5)` both session listeners reset the model to. -/
def defaultPosition : Vec3 := ⟨0, 0, -0.5⟩

/-- The `sessionstart` listener: set the session-active flag, clear the
`hitTestSourceRequested` flag and, if the model is loaded, hide it and move
it to `(0, 0, -0.5)`. -/
def onSessionStart (s : ARState) : ARState :=
  { s with isARSessionActive := true,
           hitTestSourceRequested := false,
           model := s.model.map fun m =>
             { m with visible := false, position := defaultPosition } }

/-- The `sessionend` listener: clear the session-active flag; if the model
is loaded, show it at `(0, 0, -0.5)` with zero rotation; if the marker
exists, hide it. -/
def onSessionEnd (s : ARState) : ARState :=
  { s with isARSessionActive := false,
           model := s.model.map fun m =>
             { m with visible := true, position := defaultPosition,
                      orientation := Quat.identity },
           marker := s.marker.map fun mk => { mk with visible := false } }

/-- The pulsing animation applied to the marker each frame it is shown:
scale `1 + sin * 0.1` on all axes, mesh opacity `0.5 + sin * 0.2`, where
`sin` is `Math.sin(Date.now() * 0.005)`. -/
def pulseAnimation (sinVal : ℚ) (mk : Marker) : Marker :=
  let sc : ℚ := 1 + sinVal * 0.1
  { mk with scale := ⟨sc, sc, sc⟩, childOpacity := 0.5 + sinVal * 0.2 }

/-- The per-frame callback `onXRFrame`: when a hit-test source, a marker and
a reference space are all present, query the hit-test results; with at least
one result whose pose is known, show the marker, write the pose matrix into
its transform and run the pulse animation; with no results, hide the
marker. -/
def onXRFrame (f : XRFrameData) (s : ARState) : ARState :=
  match s.marker with
  | some mk =>
    if s.hitTestSourceActive && s.referenceSpaceSet then
      match f.hitTestResults with
      | [] => { s with marker := some { mk with visible := false } }
      | hit :: _ =>
        match hit.pose with
        | some pose =>
          { s with marker := some (pulseAnimation f.pulseSin
              { mk with visible := true, matrix := pose.matrix }) }
        | none => s
    else s
  | none => s

/-- Outcome of `session.requestHitTestSource({ space })`: the promise
resolves with a source, resolves with a falsy value, or rejects. -/
inductive HitTestOutcome where
  | granted
  | nullSource
  | errored
deriving DecidableEq, Repr

/-- The platform oracle for one run of `startARSession`: whether
`navigator.xr` exists, whether `requestSession('immersive-ar', ...)`
resolves, which reference-space types `requestReferenceSpace` grants,
whether the session object has a `requestHitTestSource` method, and how
that request turns out if made. -/
structure XRPlatform where
  xrAvailable : Bool
  sessionGranted : Bool
  grants : String → Bool
  hasRequestHitTestSource : Bool
  hitTestOutcome : HitTestOutcome

/-- The fixed preference order of reference-space types tried by
`startARSession`. -/
def referenceSpaceTypes : List String :=
  ["local-floor", "bounded-floor", "local", "viewer"]

/-- The `for ... of referenceSpaceTypes` loop: request each type in order,
swallowing rejections, and stop at the first grant.  Returns the list of
types actually requested (in order) and the grant the loop ended with. -/
def requestRefSpaces (g : String → Bool) : List String → List String × Option String
  | [] => ([], none)
  | t :: rest =>
    if g t then ([t], some t)
    else
      let r := requestRefSpaces g rest
      (t :: r.1, r.2)

/-- Error message set when `navigator.xr` is absent. -/
def xrErrorNoXR : String := "WebXR not available."

/-- Error message set by the outer catch of `startARSession`. -/
def xrErrorStartFail : String :=
  "Could not start AR session. Make sure your device supports WebXR."

/-- Error message set when the hit-test source request fails. -/
def xrErrorHitTest : String :=
  "Could not initialize hit testing. Some AR features may be limited."

/-- Observable effects of one run of `startARSession`: which reference
spaces were requested and which was stored in `referenceSpaceRef`, whether
`requestHitTestSource` was called and whether `hitTestSourceRef` was set,
the last `setErrorMessage` argument (if any), and whether the session was
handed to the renderer. -/
structure StartResult where
  requested : List String
  chosen : Option String
  hitTestRequested : Bool
  hitTestSourceSet : Bool
  errorMessage : Option String
  sessionStarted : Bool
deriving DecidableEq, Repr

/-- `startARSession`, as a function of the platform oracle.  Mirrors the
source control flow: bail out with a message if `navigator.xr` is missing;
the outer try requests the session and hands it to the renderer, then runs
the reference-space loop; a loop ending with no grant throws into the outer
catch, which sets the generic failure message; otherwise the granted space
is stored and, when the session exposes `requestHitTestSource`, the
hit-test source request is attempted, its own failure caught separately. -/
def startARSession (p : XRPlatform) : StartResult :=
  if p.xrAvailable = false then
    ⟨[], none, false, false, some xrErrorNoXR, false⟩
  else if p.sessionGranted = false then
    ⟨[], none, false, false, some xrErrorStartFail, false⟩
  else
    let r := requestRefSpaces p.grants referenceSpaceTypes
    match r.2 with
    | none => ⟨r.1, none, false, false, some xrErrorStartFail, true⟩
    | some t =>
      if p.hasRequestHitTestSource then
        match p.hitTestOutcome with
        | .granted => ⟨r.1, some t, true, true, none, true⟩
        | .nullSource => ⟨r.1, some t, true, false, none, true⟩
        | .errored => ⟨r.1, some t, true, false, some xrErrorHitTest, true⟩
      else ⟨r.1, some t, false, false, none, true⟩

/-- Outcome oracle for the three `openssl` steps of `scripts/generate-cert.js`:
whether key generation, CSR generation and self-signing each exit zero. -/
structure CertEnv where
  keyOk : Bool
  csrOk : Bool
  certOk : Bool
deriving DecidableEq, Repr

/-- Path of the generated private key, relative to the project root. -/
def certKeyFile : String := "certs/key.pem"

/-- Path of the intermediate certificate request. -/
def certCsrFile : String := "certs/csr.pem"

/-- Path of the generated self-signed certificate. -/
def certCertFile : String := "certs/cert.pem"

/-- Observable effects of one run of the certificate script: the files
written into the `certs` directory in order, the files deleted, and the
process exit status. -/
structure CertOutcome where
  writes : List String
  deletes : List String
  exitCode : Nat
deriving DecidableEq, Repr

/-- `scripts/generate-cert.js` as a function of its command line and the
`openssl` outcome oracle.  The script never inspects `process.argv`, so the
`argv` argument is unused.  Each `execSync` writes its output file on
success and throws on failure; the catch block exits with status 1; on full
success the CSR is unlinked and the script exits normally. -/
def generateCert (_argv : List String) (env : CertEnv) : CertOutcome :=
  if env.keyOk then
    if env.csrOk then
      if env.certOk then
        ⟨[certKeyFile, certCsrFile, certCertFile], [certCsrFile], 0⟩
      else ⟨[certKeyFile, certCsrFile], [], 1⟩
    else ⟨[certKeyFile], [], 1⟩
  else ⟨[], [], 1⟩

/-- Claim C1: on a select event with a model loaded and the marker visible
with placement transform `(mk.position, mk.orientation)`, the handler sets
the model's position to the marker's position plus 0.05 on the y axis, the
model's orientation to the marker's orientation, and makes the model
visible. -/
theorem onSelect_places_model (s : ARState) (m : Model3D) (mk : Marker)
    (hm : s.model = some m) (hk : s.marker = some mk) (hv : mk.visible = true) :
    (onSelect s).model = some { m with
      position := ⟨mk.position.x, mk.position.y + 0.05, mk.position.z⟩,
      orientation := mk.orientation,
      visible := true } := by
  simp [onSelect, hm, hk, hv]

/-- Concrete instance of `onSelect_places_model`. -/
theorem onSelect_places_model_witness :
    (onSelect { model := some ⟨⟨9, 9, 9⟩, ⟨1, 0, 0, 0⟩, ⟨1, 1, 1⟩, false⟩,
                marker := some ⟨⟨2, 3, 4⟩, ⟨0, 1, 0, 0⟩, ⟨1, 1, 1⟩, [], 0.7, true⟩,
                hitTestSourceActive := true, hitTestSourceRequested := true,
                referenceSpaceSet := true, isARSessionActive := true }).model
      = some ⟨⟨2, 3 + 0.05, 4⟩, ⟨0, 1, 0, 0⟩, ⟨1, 1, 1⟩, true⟩ :=
  onSelect_places_model _ _ _ rfl rfl rfl

/-- Claim C6: a select event while the marker is hidden (or absent), or
while no model is loaded, leaves the whole state - in particular the
model's position, orientation, scale and visibility - unchanged. -/
theorem onSelect_noop (s : ARState)
    (h : s.model = none ∨ markerVisible s = false) :
    onSelect s = s := by
  rcases hm : s.model with _ | m
  · simp [onSelect, hm]
  · rcases hk : s.marker with _ | mk
    · simp [onSelect, hm, hk]
    · rcases h with h | h
      · rw [hm] at h; cases h
      · have hv : mk.visible = false := by
          unfold markerVisible at h; rw [hk] at h; simpa using h
        simp [onSelect, hm, hk, hv]

/-- Concrete instance of `onSelect_noop` with a hidden marker. -/
theorem onSelect_noop_witness :
    onSelect { model := some ⟨⟨1, 2, 3⟩, ⟨0, 0, 0, 1⟩, ⟨1, 1, 1⟩, true⟩,
               marker := some ⟨⟨4, 5, 6⟩, ⟨0, 0, 0, 1⟩, ⟨1, 1, 1⟩, [], 0.7, false⟩,
               hitTestSourceActive := true, hitTestSourceRequested := true,
               referenceSpaceSet := true, isARSessionActive := true }
      = { model := some ⟨⟨1, 2, 3⟩, ⟨0, 0, 0, 1⟩, ⟨1, 1, 1⟩, true⟩,
          marker := some ⟨⟨4, 5, 6⟩, ⟨0, 0, 0, 1⟩, ⟨1, 1, 1⟩, [], 0.7, false⟩,
          hitTestSourceActive := true, hitTestSourceRequested := true,
          referenceSpaceSet := true, isARSessionActive := true } :=
  onSelect_noop _ (Or.inr rfl)

/-- Claim C4: a frame with an active hit-test source, marker and reference
space whose hit-test query returns at least one result with a known pose
makes the marker visible and writes that first result's pose matrix into
the marker's transform. -/
theorem onXRFrame_hit_shows_marker (s : ARState) (mk : Marker)
    (f : XRFrameData) (hit : XRHitResult) (rest : List XRHitResult)
    (pose : XRPose)
    (hsrc : s.hitTestSourceActive = true) (hk : s.marker = some mk)
    (hrs : s.referenceSpaceSet = true)
    (hres : f.hitTestResults = hit :: rest) (hpose : hit.pose = some pose) :
    ∃ mk2, (onXRFrame f s).marker = some mk2
      ∧ mk2.visible = true ∧ mk2.matrix = pose.matrix := by
  refine ⟨pulseAnimation f.pulseSin { mk with visible := true, matrix := pose.matrix }, ?_, ?_, ?_⟩
  · simp [onXRFrame, hk, hsrc, hrs, hres, hpose]
  · simp [pulseAnimation]
  · simp [pulseAnimation]

/-- Concrete instance of `onXRFrame_hit_shows_marker`. -/
theorem onXRFrame_hit_shows_marker_witness :
    ∃ mk2,
      (onXRFrame ⟨[⟨some ⟨[1, 2, 3]⟩⟩], 0⟩
        { model := none,
          marker := some ⟨⟨0, 0, 0⟩, ⟨0, 0, 0, 1⟩, ⟨1, 1, 1⟩, [], 0.7, false⟩,
          hitTestSourceActive := true, hitTestSourceRequested := true,
          referenceSpaceSet := true, isARSessionActive := true }).marker = some mk2
      ∧ mk2.visible = true ∧ mk2.matrix = XRPose.matrix ⟨[1, 2, 3]⟩ :=
  onXRFrame_hit_shows_marker _ _ _ _ _ _ rfl rfl rfl rfl rfl

/-- Claim C5: a frame with an active hit-test source, marker and reference
space whose hit-test query returns zero results hides the marker. -/
theorem onXRFrame_miss_hides_marker (s : ARState) (mk : Marker)
    (f : XRFrameData)
    (hsrc : s.hitTestSourceActive = true) (hk : s.marker = some mk)
    (hrs : s.referenceSpaceSet = true)
    (hres : f.hitTestResults = []) :
    (onXRFrame f s).marker = some { mk with visible := false } := by
  simp [onXRFrame, hk, hsrc, hrs, hres]

/-- Concrete instance of `onXRFrame_miss_hides_marker`. -/
theorem onXRFrame_miss_hides_marker_witness :
    (onXRFrame ⟨[], 0⟩
      { model := none,
        marker := some ⟨⟨5, 6, 7⟩, ⟨0, 0, 0, 1⟩, ⟨1, 1, 1⟩, [9], 0.7, true⟩,
        hitTestSourceActive := true, hitTestSourceRequested := true,
        referenceSpaceSet := true, isARSessionActive := true }).marker
      = some ⟨⟨5, 6, 7⟩, ⟨0, 0, 0, 1⟩, ⟨1, 1, 1⟩, [9], 0.7, false⟩ :=
  onXRFrame_miss_hides_marker _ _ _ rfl rfl rfl rfl

/-- Claim C7: the sessionend listener, when a model is loaded, shows the
model at its default pose (position `(0, 0, -0.5)`, zero rotation) and
hides the marker. -/
theorem onSessionEnd_resets (s : ARState) (m : Model3D)
    (hm : s.model = some m) :
    (onSessionEnd s).model = some { m with
      visible := true,
      position := defaultPosition,
      orientation := Quat.identity }
      ∧ markerVisible (onSessionEnd s) = false := by
  constructor
  · simp [onSessionEnd, hm]
  · unfold markerVisible onSessionEnd
    match hk : s.marker with
    | some mk => simp
    | none => simp

/-- Concrete instance of `onSessionEnd_resets`. -/
theorem onSessionEnd_resets_witness :
    (onSessionEnd ⟨some ⟨⟨1, 2, 3⟩, ⟨0, 1, 0, 0⟩, ⟨1, 1, 1⟩, false⟩,
        some ⟨⟨4, 5, 6⟩, ⟨0, 0, 0, 1⟩, ⟨1, 1, 1⟩, [], 0.7, true⟩,
        true, true, true, true⟩).model
      = some ⟨defaultPosition, Quat.identity, ⟨1, 1, 1⟩, true⟩
    ∧ markerVisible (onSessionEnd ⟨some ⟨⟨1, 2, 3⟩, ⟨0, 1, 0, 0⟩, ⟨1, 1, 1⟩, false⟩,
        some ⟨⟨4, 5, 6⟩, ⟨0, 0, 0, 1⟩, ⟨1, 1, 1⟩, [], 0.7, true⟩,
        true, true, true, true⟩) = false :=
  onSessionEnd_resets
    ⟨some ⟨⟨1, 2, 3⟩, ⟨0, 1, 0, 0⟩, ⟨1, 1, 1⟩, false⟩,
      some ⟨⟨4, 5, 6⟩, ⟨0, 0, 0, 1⟩, ⟨1, 1, 1⟩, [], 0.7, true⟩,
      true, true, true, true⟩
    ⟨⟨1, 2, 3⟩, ⟨0, 1, 0, 0⟩, ⟨1, 1, 1⟩, false⟩ rfl

/-- Claim C10: the sessionstart listener, when a model is loaded, hides the
model and moves it to `(0, 0, -0.5)`, and marks the session active. -/
theorem onSessionStart_hides_model (s : ARState) (m : Model3D)
    (hm : s.model = some m) :
    (onSessionStart s).model = some { m with
      visible := false,
      position := defaultPosition }
      ∧ (onSessionStart s).isARSessionActive = true := by
  constructor
  · simp [onSessionStart, hm]
  · simp [onSessionStart]

/-- Characterisation of the reference-space loop: it ends with the first
granted type of the list, and it requests exactly the rejected types before
that one followed by the granted one (all of the list when none is
granted). -/
theorem requestRefSpaces_spec (g : String → Bool) (l : List String) :
    (requestRefSpaces g l).2 = l.find? g
      ∧ (requestRefSpaces g l).1 =
          (match l.find? g with
           | some t => (l.takeWhile fun u => !g u) ++ [t]
           | none => l) := by
  induction l with
  | nil => exact ⟨rfl, rfl⟩
  | cons a l ih =>
    obtain ⟨ih1, ih2⟩ := ih
    cases ha : g a with
    | true =>
      constructor
      · simp [requestRefSpaces, ha, List.find?]
      · simp [requestRefSpaces, ha, List.find?, List.takeWhile]
    | false =>
      constructor
      · simp [requestRefSpaces, ha, List.find?, ih1]
      · simp only [requestRefSpaces, ha, List.find?, List.takeWhile,
          Bool.false_eq_true, if_false, Bool.not_false, if_true]
        cases hf : l.find? g with
        | none => simpa [hf] using ih2
        | some t =>
          rw [hf] at ih2
          simp [ih2]

/-- The observable fields of `startARSession` once `navigator.xr` exists
and the session request is granted: the requested and chosen reference
spaces come from the loop, the session is handed to the renderer, a loop
ending with no grant sets the generic failure message and skips the
hit-test request, and a loop ending with a grant attempts the hit-test
request exactly when the session exposes `requestHitTestSource`. -/
theorem startARSession_core (p : XRPlatform)
    (hxr : p.xrAvailable = true) (hs : p.sessionGranted = true) :
    (startARSession p).requested = (requestRefSpaces p.grants referenceSpaceTypes).1
      ∧ (startARSession p).chosen = (requestRefSpaces p.grants referenceSpaceTypes).2
      ∧ (startARSession p).sessionStarted = true
      ∧ ((requestRefSpaces p.grants referenceSpaceTypes).2 = none →
           (startARSession p).errorMessage = some xrErrorStartFail
             ∧ (startARSession p).hitTestRequested = false
             ∧ (startARSession p).hitTestSourceSet = false)
      ∧ ((requestRefSpaces p.grants referenceSpaceTypes).2 ≠ none →
           (startARSession p).hitTestRequested = p.hasRequestHitTestSource) := by
  unfold startARSession
  rw [hxr, hs]
  rcases hr : (requestRefSpaces p.grants referenceSpaceTypes).2 with _ | t
  · simp [hr]
  · cases hh : p.hasRequestHitTestSource <;> cases ho : p.hitTestOutcome <;>
      simp [hr, hh, ho]

/-- Claim C2 as stated is false on the code: on a run where every
reference-space request except `viewer` is rejected (and the session
exposes `requestHitTestSource`), `startARSession` does choose `viewer`,
but it still attempts the hit-test source request. -/
theorem startARSession_viewer_counterexample :
    (startARSession ⟨true, true, fun t => t == "viewer", true,
        HitTestOutcome.granted⟩).chosen = some "viewer"
      ∧ (startARSession ⟨true, true, fun t => t == "viewer", true,
          HitTestOutcome.granted⟩).sessionStarted = true
      ∧ (startARSession ⟨true, true, fun t => t == "viewer", true,
          HitTestOutcome.granted⟩).hitTestRequested = true :=
  ⟨rfl, rfl, rfl⟩

/-- Claim C2 amended: on every run where every reference-space request
except `viewer` is rejected, the session still starts with `viewer` as the
granted reference space, and the hit-test source request is attempted
exactly when the session exposes `requestHitTestSource` - the same
behaviour as for any other granted space. -/
theorem startARSession_viewer_only (p : XRPlatform)
    (hxr : p.xrAvailable = true) (hs : p.sessionGranted = true)
    (h1 : p.grants "local-floor" = false)
    (h2 : p.grants "bounded-floor" = false)
    (h3 : p.grants "local" = false)
    (h4 : p.grants "viewer" = true) :
    (startARSession p).sessionStarted = true
      ∧ (startARSession p).chosen = some "viewer"
      ∧ (startARSession p).hitTestRequested = p.hasRequestHitTestSource := by
  obtain ⟨hreq, hch, hst, hnone, hsome⟩ := startARSession_core p hxr hs
  have hr2 : (requestRefSpaces p.grants referenceSpaceTypes).2 = some "viewer" := by
    simp [requestRefSpaces, referenceSpaceTypes, h1, h2, h3, h4]
  exact ⟨hst, by rw [hch, hr2], hsome (by simp [hr2])⟩

/-- Concrete instance of `startARSession_viewer_only`, on a session without
a `requestHitTestSource` method. -/
theorem startARSession_viewer_only_witness :
    (startARSession ⟨true, true, fun t => t == "viewer", false,
        HitTestOutcome.granted⟩).sessionStarted = true
      ∧ (startARSession ⟨true, true, fun t => t == "viewer", false,
          HitTestOutcome.granted⟩).chosen = some "viewer"
      ∧ (startARSession ⟨true, true, fun t => t == "viewer", false,
          HitTestOutcome.granted⟩).hitTestRequested = false :=
  startARSession_viewer_only
    ⟨true, true, fun t => t == "viewer", false, HitTestOutcome.granted⟩
    rfl rfl rfl rfl rfl rfl

/-- Claim C3: `startARSession` requests reference spaces in the fixed order
local-floor, bounded-floor, local, viewer; it accepts the first granted one
and requests none of the later ones; and when all four are rejected it sets
the user-facing failure message and does not proceed to the hit-test
request. -/
theorem startARSession_refSpace_order (p : XRPlatform)
    (hxr : p.xrAvailable = true) (hs : p.sessionGranted = true) :
    (startARSession p).chosen = referenceSpaceTypes.find? p.grants
      ∧ (∀ t, (startARSession p).chosen = some t →
          (startARSession p).requested
            = (referenceSpaceTypes.takeWhile fun u => !p.grants u) ++ [t])
      ∧ (referenceSpaceTypes.find? p.grants = none →
          (startARSession p).requested = referenceSpaceTypes
            ∧ (startARSession p).errorMessage = some xrErrorStartFail
            ∧ (startARSession p).hitTestRequested = false
            ∧ (startARSession p).hitTestSourceSet = false) := by
  obtain ⟨hreq, hch, hst, hnone, hsome⟩ := startARSession_core p hxr hs
  obtain ⟨hf2, hf1⟩ := requestRefSpaces_spec p.grants referenceSpaceTypes
  refine ⟨by rw [hch, hf2], ?_, ?_⟩
  · intro t ht
    rw [hch, hf2] at ht
    rw [hreq, hf1, ht]
  · intro hn
    have h2n : (requestRefSpaces p.grants referenceSpaceTypes).2 = none := by
      rw [hf2, hn]
    obtain ⟨he, hht, hhs⟩ := hnone h2n
    exact ⟨by rw [hreq, hf1, hn], he, hht, hhs⟩

/-- Concrete instance of `startARSession_refSpace_order`, on a platform
rejecting all four reference spaces. -/
theorem startARSession_refSpace_order_witness :
    (startARSession ⟨true, true, fun _ => false, true,
        HitTestOutcome.granted⟩).requested = referenceSpaceTypes
      ∧ (startARSession ⟨true, true, fun _ => false, true,
          HitTestOutcome.granted⟩).errorMessage = some xrErrorStartFail
      ∧ (startARSession ⟨true, true, fun _ => false, true,
          HitTestOutcome.granted⟩).hitTestRequested = false
      ∧ (startARSession ⟨true, true, fun _ => false, true,
          HitTestOutcome.granted⟩).hitTestSourceSet = false :=
  (startARSession_refSpace_order
    ⟨true, true, fun _ => false, true, HitTestOutcome.granted⟩ rfl rfl).2.2 rfl

/-- The per-frame hit-test callback never touches the model ref. -/
theorem onXRFrame_model_eq (f : XRFrameData) (s : ARState) :
    (onXRFrame f s).model = s.model := by
  unfold onXRFrame
  cases s.marker with
  | none => rfl
  | some mk =>
    dsimp only
    split
    · cases f.hitTestResults with
      | nil => rfl
      | cons hit rest =>
        obtain ⟨po⟩ := hit
        cases po with
        | none => rfl
        | some pose => rfl
    · rfl

/-- Claim C8 as stated is false on the code: the sessionend and
sessionstart listeners - which are not the select handler - also update the
model's placement transform, shown here on a model placed at (1, 2, 3). -/
theorem placement_only_select_counterexample :
    modelPosition (onSessionEnd ⟨some ⟨⟨1, 2, 3⟩, ⟨0, 0, 0, 1⟩, ⟨1, 1, 1⟩, true⟩,
        none, false, false, false, true⟩)
      ≠ modelPosition ⟨some ⟨⟨1, 2, 3⟩, ⟨0, 0, 0, 1⟩, ⟨1, 1, 1⟩, true⟩,
        none, false, false, false, true⟩
    ∧ modelPosition (onSessionStart ⟨some ⟨⟨1, 2, 3⟩, ⟨0, 0, 0, 1⟩, ⟨1, 1, 1⟩, true⟩,
        none, false, false, false, false⟩)
      ≠ modelPosition ⟨some ⟨⟨1, 2, 3⟩, ⟨0, 0, 0, 1⟩, ⟨1, 1, 1⟩, true⟩,
        none, false, false, false, false⟩ := by
  constructor <;> decide

/-- Claim C8 amended: the model's placement transform is updated only by an
explicit user select event or by the session lifecycle listeners, which
reset it to the fixed default pose (sessionstart sets the position to
`(0, 0, -0.5)` keeping the orientation; sessionend sets position
`(0, 0, -0.5)` and zero rotation); the per-frame hit-test callback never
updates it. -/
theorem placement_transform_updates (f : XRFrameData) (s : ARState)
    (m : Model3D) (hm : s.model = some m) :
    modelTransform (onXRFrame f s) = modelTransform s
      ∧ (onSessionStart s).model = some { m with
          visible := false, position := defaultPosition }
      ∧ (onSessionEnd s).model = some { m with
          visible := true, position := defaultPosition,
          orientation := Quat.identity } := by
  refine ⟨?_, ?_, ?_⟩
  · unfold modelTransform
    rw [onXRFrame_model_eq]
  · simp [onSessionStart, hm]
  · simp [onSessionEnd, hm]

/-- Concrete instance of `placement_transform_updates`. -/
theorem placement_transform_updates_witness :
    modelTransform (onXRFrame ⟨[], 0⟩
        ⟨some ⟨⟨1, 2, 3⟩, ⟨0, 1, 0, 0⟩, ⟨1, 1, 1⟩, true⟩,
          none, false, false, false, true⟩)
      = modelTransform ⟨some ⟨⟨1, 2, 3⟩, ⟨0, 1, 0, 0⟩, ⟨1, 1, 1⟩, true⟩,
          none, false, false, false, true⟩
    ∧ (onSessionStart ⟨some ⟨⟨1, 2, 3⟩, ⟨0, 1, 0, 0⟩, ⟨1, 1, 1⟩, true⟩,
          none, false, false, false, true⟩).model
      = some ⟨defaultPosition, ⟨0, 1, 0, 0⟩, ⟨1, 1, 1⟩, false⟩
    ∧ (onSessionEnd ⟨some ⟨⟨1, 2, 3⟩, ⟨0, 1, 0, 0⟩, ⟨1, 1, 1⟩, true⟩,
          none, false, false, false, true⟩).model
      = some ⟨defaultPosition, Quat.identity, ⟨1, 1, 1⟩, true⟩ :=
  placement_transform_updates ⟨[], 0⟩
    ⟨some ⟨⟨1, 2, 3⟩, ⟨0, 1, 0, 0⟩, ⟨1, 1, 1⟩, true⟩,
      none, false, false, false, true⟩
    ⟨⟨1, 2, 3⟩, ⟨0, 1, 0, 0⟩, ⟨1, 1, 1⟩, true⟩ rfl

/-- Claim C9: the certificate script ignores its command line; on full
success it writes the key, CSR and certificate into the fixed `certs`
directory, exits with status 0 and deletes the intermediate CSR; and if any
generation step fails it exits with a non-zero status (and deletes
nothing). -/
theorem generateCert_spec (argv : List String) (env : CertEnv) :
    generateCert argv env = generateCert [] env
      ∧ (env.keyOk = true → env.csrOk = true → env.certOk = true →
          generateCert argv env
            = ⟨[certKeyFile, certCsrFile, certCertFile], [certCsrFile], 0⟩)
      ∧ ((env.keyOk = false ∨ env.csrOk = false ∨ env.certOk = false) →
          (generateCert argv env).exitCode ≠ 0
            ∧ (generateCert argv env).deletes = []) := by
  obtain ⟨k, c, x⟩ := env
  cases k <;> cases c <;> cases x <;> simp [generateCert]

/-- Concrete instance of `generateCert_spec`: a fully successful run. -/
theorem generateCert_spec_witness :
    generateCert ["dev"] ⟨true, true, true⟩
      = ⟨[certKeyFile, certCsrFile, certCertFile], [certCsrFile], 0⟩ :=
  (generateCert_spec ["dev"] ⟨true, true, true⟩).2.1 rfl rfl rfl

/-- Concrete instance of `onSessionStart_hides_model`. -/
theorem onSessionStart_hides_model_witness :
    (onSessionStart ⟨some ⟨⟨1, 2, 3⟩, ⟨0, 1, 0, 0⟩, ⟨1, 1, 1⟩, true⟩,
        none, false, true, false, false⟩).model
      = some ⟨defaultPosition, ⟨0, 1, 0, 0⟩, ⟨1, 1, 1⟩, false⟩
    ∧ (onSessionStart ⟨some ⟨⟨1, 2, 3⟩, ⟨0, 1, 0, 0⟩, ⟨1, 1, 1⟩, true⟩,
        none, false, true, false, false⟩).isARSessionActive = true :=
  onSessionStart_hides_model
    ⟨some ⟨⟨1, 2, 3⟩, ⟨0, 1, 0, 0⟩, ⟨1, 1, 1⟩, true⟩,
      none, false, true, false, false⟩
    ⟨⟨1, 2, 3⟩, ⟨0, 1, 0, 0⟩, ⟨1, 1, 1⟩, true⟩ rfl
